import Mathlib

/-!
Shallow embedding of the narthex-web-app bridge (src/src/lib.rs).

The crate is an adapter: it owns a user-supplied engine, builds a webview
window, and installs a message handler that decodes inbound page messages
into engine actions, runs the engine, and either shuts the window down or
injects the serialized response back into the page.

The engine (narthex_engine_trait), serde, and the web_view crate are
external collaborators; the bridge consumes them through a small capability
surface (initial_html, execute, handle_event, shutdown_required, kind,
new_with_error, action deserialization, response serialization, escape,
script evaluation, window construction).  These capabilities are modelled
as explicit function-record parameters, and the bridge code itself is
translated statement by statement, producing a trace of observable effects
(log lines, window construction, window exit, script injections, engine
lifecycle events) together with an outcome.
-/

namespace NarthexWeb

/-- Mirrors `pub struct WebParams` in src/src/lib.rs. -/
structure WebParams where
  title : String
  debug : Bool
  height : Int
  width : Int
  verbose : Bool
deriving DecidableEq, Repr

/-- Mirrors `impl Default for WebParams` in src/src/lib.rs. -/
def WebParams.default : WebParams :=
  { title := "App"
    debug := false
    width := 640
    height := 960
    verbose := false }

/-- Response kinds from narthex_engine_trait; the bridge pattern-matches
`ResponseKind::Error(msg)`. -/
inductive ResponseKind where
  | Ok : ResponseKind
  | Error : String → ResponseKind
deriving DecidableEq, Repr

/-- Lifecycle events from narthex_engine_trait; the bridge only uses `Stop`. -/
inductive Event where
  | Stop : Event
deriving DecidableEq, Repr

/-- The capability surface of the external engine and its associated
serde-derived (de)serializers, as consumed by the bridge.  `σ` is the
engine state, `α` the action type, `ρ` the response type.  Fallible Rust
calls (anyhow::Result, serde results) become `Except String`, the error
carrying the description that the bridge formats into its messages. -/
structure EngineIface (σ α ρ : Type) where
  initial_html : σ → Except String (String × σ)
  execute : σ → α → σ × Except String ρ
  handle_event : σ → Event → σ × Except String ρ
  shutdown_required : ρ → Bool
  kind : ρ → ResponseKind
  new_with_error : String → ρ
  decodeAction : String → Except String α
  serializeResponse : ρ → Except String String

/-- The configuration the bridge passes to the web_view builder. -/
structure WindowConfig where
  title : String
  content : String
  width : Int
  height : Int
  resizable : Bool
  debug : Bool
deriving DecidableEq, Repr

/-- Observable effects of one run of the bridge, in order of occurrence. -/
inductive Effect where
  | logTrace : String → Effect
  | logError : String → Effect
  | buildWindow : WindowConfig → Effect
  | exit : Effect
  | eval : String → Effect
  | engineEvent : Event → Effect
deriving DecidableEq, Repr

/-- The capability surface of the external web_view crate: the `escape`
string escaper, the result of a `webview.eval` script injection, and the
result of `builder.build()`. -/
structure WebviewIface where
  escape : String → String
  evalResult : String → Except String Unit
  buildResult : WindowConfig → Except String Unit

/-- How one invocation of the bridge message handler ends: normal return
`Ok(())`, an error propagated out of the handler (`webview.eval` failure),
or a process abort (the two `panic!` sites). -/
inductive HandlerResult where
  | ok : HandlerResult
  | err : String → HandlerResult
  | aborted : String → HandlerResult
deriving DecidableEq, Repr

/-- The message handler installed via `invoke_handler` in
`run_engine_with_webview` (src/src/lib.rs lines 72-119), translated
statement by statement.  Returns the engine state after the call, the
effects emitted, and how the handler call ended. -/
def invoke_handler {σ α ρ : Type} (I : EngineIface σ α ρ) (W : WebviewIface)
    (params : WebParams) (st : σ) (arg : String) :
    σ × List Effect × HandlerResult :=
  let traceFx : List Effect :=
    if params.verbose then [Effect.logTrace ("action: " ++ arg)] else []
  match I.decodeAction arg with
  | Except.error e =>
      (st, traceFx ++ [Effect.logError ("cannot deserialise: " ++ e)],
        HandlerResult.aborted "cannot deserialise")
  | Except.ok action =>
      let pr := I.execute st action
      let st1 := pr.1
      let fxr : List Effect × ρ :=
        match pr.2 with
        | Except.ok r => ([], r)
        | Except.error e =>
            ([Effect.logError ("bad execution: " ++ e)],
              I.new_with_error ("bad execution: " ++ e))
      let fx1 := fxr.1
      let response := fxr.2
      if I.shutdown_required response then
        (st1,
          traceFx ++ fx1 ++
            (match I.kind response with
              | ResponseKind.Error msg =>
                  [Effect.logError ("system error: " ++ msg)]
              | ResponseKind.Ok => []) ++ [Effect.exit],
          HandlerResult.ok)
      else
        match I.serializeResponse response with
        | Except.error e =>
            (st1, traceFx ++ fx1 ++ [Effect.logError ("cannot serialise: " ++ e)],
              HandlerResult.aborted "cannot serialise")
        | Except.ok rs =>
            let rsjs := W.escape rs
            let script := "respond(" ++ rsjs ++ ");"
            match W.evalResult script with
            | Except.ok _ =>
                (st1, traceFx ++ fx1 ++ [Effect.eval script], HandlerResult.ok)
            | Except.error e =>
                (st1, traceFx ++ fx1 ++ [Effect.eval script], HandlerResult.err e)

/-- The response-handling tail of the handler (shutdown check onward,
src/src/lib.rs lines 92-118) as a standalone function of the response, used
to state that an execute failure is handled exactly like an engine-returned
response. -/
def handle_response {σ α ρ : Type} (I : EngineIface σ α ρ) (W : WebviewIface)
    (st : σ) (response : ρ) : σ × List Effect × HandlerResult :=
  if I.shutdown_required response then
    (st,
      (match I.kind response with
        | ResponseKind.Error msg => [Effect.logError ("system error: " ++ msg)]
        | ResponseKind.Ok => []) ++ [Effect.exit],
      HandlerResult.ok)
  else
    match I.serializeResponse response with
    | Except.error e =>
        (st, [Effect.logError ("cannot serialise: " ++ e)],
          HandlerResult.aborted "cannot serialise")
    | Except.ok rs =>
        let rsjs := W.escape rs
        let script := "respond(" ++ rsjs ++ ");"
        match W.evalResult script with
        | Except.ok _ => (st, [Effect.eval script], HandlerResult.ok)
        | Except.error e => (st, [Effect.eval script], HandlerResult.err e)

/-- How the webview event loop ends: the window closes (handler `exit` or
external closure), `webview.run()` returns an error propagated from the
handler, or the process aborted inside the handler. -/
inductive LoopEnd where
  | closed : LoopEnd
  | erred : String → LoopEnd
  | aborted : String → LoopEnd
deriving DecidableEq, Repr

/-- The webview event loop: messages arriving from the page are handled one
at a time; `webview.exit()` stops delivery of further messages; an empty
remainder models the user closing the window externally. -/
def run_loop {σ α ρ : Type} (I : EngineIface σ α ρ) (W : WebviewIface)
    (params : WebParams) : σ → List String → σ × List Effect × LoopEnd
  | st, [] => (st, [], LoopEnd.closed)
  | st, arg :: rest =>
      match invoke_handler I W params st arg with
      | (st1, fx, HandlerResult.aborted m) => (st1, fx, LoopEnd.aborted m)
      | (st1, fx, HandlerResult.err e) => (st1, fx, LoopEnd.erred e)
      | (st1, fx, HandlerResult.ok) =>
          if Effect.exit ∈ fx then (st1, fx, LoopEnd.closed)
          else
            match run_loop I W params st1 rest with
            | (st2, fx2, e) => (st2, fx ++ fx2, e)

/-- How `run_engine_with_webview` ends: `Ok(())`, `Err(e)` (initial_html
failure, build failure, or a handler error propagated by `webview.run()?`),
or a process abort from inside the handler. -/
inductive RunOutcome where
  | ok : RunOutcome
  | err : String → RunOutcome
  | aborted : String → RunOutcome
deriving DecidableEq, Repr

/-- `UserData::run_engine_with_webview` (src/src/lib.rs lines 61-124):
trace, ask the engine for initial HTML (propagating failure), build the
window from params, run the event loop over the inbound messages, then
deliver one final Stop event to the engine, discarding its result. -/
def run_engine_with_webview {σ α ρ : Type} (I : EngineIface σ α ρ)
    (W : WebviewIface) (params : WebParams) (st : σ) (msgs : List String) :
    List Effect × RunOutcome :=
  let fx0 : List Effect := [Effect.logTrace "running with engine"]
  match I.initial_html st with
  | Except.error e => (fx0, RunOutcome.err e)
  | Except.ok ihst =>
      let initialHtml := ihst.1
      let st1 := ihst.2
      let cfg : WindowConfig :=
        { title := params.title
          content := initialHtml
          width := params.width
          height := params.height
          resizable := true
          debug := params.debug }
      match W.buildResult cfg with
      | Except.error e => (fx0 ++ [Effect.buildWindow cfg], RunOutcome.err e)
      | Except.ok _ =>
          match run_loop I W params st1 msgs with
          | (st2, fx, LoopEnd.closed) =>
              let stopd := I.handle_event st2 Event.Stop
              let _st3 := stopd.1
              (fx0 ++ [Effect.buildWindow cfg] ++ fx ++
                [Effect.engineEvent Event.Stop], RunOutcome.ok)
          | (_, fx, LoopEnd.erred e) =>
              (fx0 ++ [Effect.buildWindow cfg] ++ fx, RunOutcome.err e)
          | (_, fx, LoopEnd.aborted m) =>
              (fx0 ++ [Effect.buildWindow cfg] ++ fx, RunOutcome.aborted m)

/-- The scripts injected into the page, in order. -/
def evalScripts (fx : List Effect) : List String :=
  fx.filterMap fun f =>
    match f with
    | Effect.eval s => some s
    | _ => none

/-- Whether a trace contains no script injection at all. -/
def hasNoEval (fx : List Effect) : Bool :=
  fx.all fun f =>
    match f with
    | Effect.eval _ => false
    | _ => true

/-- Every script injection in the trace happens before any window exit. -/
def noEvalAfterExit : List Effect → Bool
  | [] => true
  | Effect.exit :: rest => hasNoEval rest
  | _ :: rest => noEvalAfterExit rest

/-- The lifecycle events delivered to the engine, in order. -/
def engineEvents (fx : List Effect) : List Event :=
  fx.filterMap fun f =>
    match f with
    | Effect.engineEvent e => some e
    | _ => none

/-- The window configurations built, in order. -/
def windowConfigs (fx : List Effect) : List WindowConfig :=
  fx.filterMap fun f =>
    match f with
    | Effect.buildWindow c => some c
    | _ => none

/-- The errors of failed script injections in the trace, in order. -/
def evalFailures (W : WebviewIface) (fx : List Effect) : List String :=
  fx.filterMap fun f =>
    match f with
    | Effect.eval s =>
        match W.evalResult s with
        | Except.error e => some e
        | Except.ok _ => none
    | _ => none

/-- The log lines emitted on the shutdown path for a given response kind. -/
def shutdownLog : ResponseKind → List Effect
  | ResponseKind.Error msg => [Effect.logError ("system error: " ++ msg)]
  | ResponseKind.Ok => []

/-- A concrete response type used to instantiate the bridge model in
witnesses. -/
structure TestResp where
  shutdown : Bool
  rkind : ResponseKind
  payload : String
deriving DecidableEq, Repr

/-- A concrete engine instance used to instantiate the bridge model in
witnesses: state is a call counter, actions are plain strings. -/
def testIface : EngineIface Nat String TestResp where
  initial_html st := Except.ok ("<html>ok</html>", st)
  execute st a :=
    if a = "fail" then (st + 1, Except.error "disk full")
    else if a = "quit" then
      (st + 1, Except.ok ⟨true, ResponseKind.Ok, "bye"⟩)
    else if a = "quitbad" then
      (st + 1, Except.ok ⟨true, ResponseKind.Error "boom", "bad"⟩)
    else if a = "pingbad" then
      (st + 1, Except.ok ⟨false, ResponseKind.Ok, "bad"⟩)
    else if a = "jserr" then
      (st + 1, Except.ok ⟨false, ResponseKind.Ok, "jsfail"⟩)
    else (st + 1, Except.ok ⟨false, ResponseKind.Ok, "pong"⟩)
  handle_event st _ := (st, Except.ok ⟨false, ResponseKind.Ok, "stopped"⟩)
  shutdown_required r := r.shutdown
  kind r := r.rkind
  new_with_error m := ⟨false, ResponseKind.Error m, "err " ++ m⟩
  decodeAction s :=
    if s = "not-json" then Except.error "expected value" else Except.ok s
  serializeResponse r :=
    if r.payload = "bad" then Except.error "unserialisable"
    else Except.ok r.payload

/-- A concrete webview instance used in witnesses. -/
def testW : WebviewIface where
  escape s := "[" ++ s ++ "]"
  evalResult s :=
    if s = "respond([jsfail]);" then Except.error "js error" else Except.ok ()
  buildResult cfg :=
    if cfg.title = "nobuild" then Except.error "build failed" else Except.ok ()

/-- A variant of the test engine whose initial_html call fails. -/
def testIfaceBadHtml : EngineIface Nat String TestResp :=
  { testIface with initial_html := fun _ => Except.error "no page" }

/-- Effects that the message handler itself can emit. -/
def handlerEffect : Effect → Bool
  | Effect.engineEvent _ => false
  | Effect.buildWindow _ => false
  | _ => true

theorem noEvalAfterExit_append (t1 t2 : List Effect) (h1 : Effect.exit ∉ t1)
    (h2 : noEvalAfterExit t2 = true) : noEvalAfterExit (t1 ++ t2) = true := by
  induction t1 with
  | nil => simpa using h2
  | cons f t ih =>
      have hf : f ≠ Effect.exit := fun hfe => h1 (by simp [hfe])
      have ht : Effect.exit ∉ t := fun hm => h1 (List.mem_cons_of_mem f hm)
      cases f with
      | exit => exact absurd rfl hf
      | logTrace s => simpa [noEvalAfterExit] using ih ht
      | logError s => simpa [noEvalAfterExit] using ih ht
      | buildWindow c => simpa [noEvalAfterExit] using ih ht
      | eval s => simpa [noEvalAfterExit] using ih ht
      | engineEvent e => simpa [noEvalAfterExit] using ih ht

theorem handler_trace_facts {σ α ρ : Type} (I : EngineIface σ α ρ)
    (W : WebviewIface) (params : WebParams) (st : σ) (arg : String) :
    noEvalAfterExit (invoke_handler I W params st arg).2.1 = true ∧
    ((invoke_handler I W params st arg).2.1.all handlerEffect) = true := by
  cases hd : I.decodeAction arg with
  | error e =>
      cases hv : params.verbose <;>
        simp [invoke_handler, hd, hv, noEvalAfterExit, hasNoEval, handlerEffect]
  | ok a =>
      rcases hx : I.execute st a with ⟨st1, res⟩
      cases res with
      | ok r =>
          by_cases hs : I.shutdown_required r = true
          · cases hk : I.kind r <;> cases hv : params.verbose <;>
              simp [invoke_handler, hd, hx, hs, hk, hv, noEvalAfterExit, hasNoEval, handlerEffect]
          · cases hser : I.serializeResponse r with
            | error e2 =>
                cases hv : params.verbose <;>
                  simp [invoke_handler, hd, hx, hs, hser, hv, noEvalAfterExit, hasNoEval, handlerEffect]
            | ok rs =>
                cases hev : W.evalResult ("respond(" ++ W.escape rs ++ ");") <;>
                  cases hv : params.verbose <;>
                    simp [invoke_handler, hd, hx, hs, hser, hev, hv, noEvalAfterExit, hasNoEval, handlerEffect]
      | error e =>
          by_cases hs : I.shutdown_required (I.new_with_error ("bad execution: " ++ e)) = true
          · cases hk : I.kind (I.new_with_error ("bad execution: " ++ e)) <;> cases hv : params.verbose <;>
              simp [invoke_handler, hd, hx, hs, hk, hv, noEvalAfterExit, hasNoEval, handlerEffect]
          · cases hser : I.serializeResponse (I.new_with_error ("bad execution: " ++ e)) with
            | error e2 =>
                cases hv : params.verbose <;>
                  simp [invoke_handler, hd, hx, hs, hser, hv, noEvalAfterExit, hasNoEval, handlerEffect]
            | ok rs =>
                cases hev : W.evalResult ("respond(" ++ W.escape rs ++ ");") <;>
                  cases hv : params.verbose <;>
                    simp [invoke_handler, hd, hx, hs, hser, hev, hv, noEvalAfterExit, hasNoEval, handlerEffect]

end NarthexWeb

namespace NarthexWeb

theorem engineEvents_nil_of_handlerEffects (fx : List Effect)
    (h : fx.all handlerEffect = true) : engineEvents fx = [] := by
  induction fx with
  | nil => rfl
  | cons f t ih =>
      rw [List.all_cons, Bool.and_eq_true] at h
      have h2 := ih h.2
      cases f with
      | engineEvent e => exact absurd h.1 (by simp [handlerEffect])
      | buildWindow c => exact absurd h.1 (by simp [handlerEffect])
      | logTrace s => simpa [engineEvents, List.filterMap_cons] using h2
      | logError s => simpa [engineEvents, List.filterMap_cons] using h2
      | exit => simpa [engineEvents, List.filterMap_cons] using h2
      | eval s => simpa [engineEvents, List.filterMap_cons] using h2

theorem windowConfigs_nil_of_handlerEffects (fx : List Effect)
    (h : fx.all handlerEffect = true) : windowConfigs fx = [] := by
  induction fx with
  | nil => rfl
  | cons f t ih =>
      rw [List.all_cons, Bool.and_eq_true] at h
      have h2 := ih h.2
      cases f with
      | engineEvent e => exact absurd h.1 (by simp [handlerEffect])
      | buildWindow c => exact absurd h.1 (by simp [handlerEffect])
      | logTrace s => simpa [windowConfigs, List.filterMap_cons] using h2
      | logError s => simpa [windowConfigs, List.filterMap_cons] using h2
      | exit => simpa [windowConfigs, List.filterMap_cons] using h2
      | eval s => simpa [windowConfigs, List.filterMap_cons] using h2

theorem run_loop_trace_facts {σ α ρ : Type} (I : EngineIface σ α ρ)
    (W : WebviewIface) (params : WebParams) (st : σ) (msgs : List String) :
    noEvalAfterExit (run_loop I W params st msgs).2.1 = true ∧
    ((run_loop I W params st msgs).2.1.all handlerEffect) = true := by
  induction msgs generalizing st with
  | nil => simp [run_loop, noEvalAfterExit]
  | cons arg rest ih =>
      rcases hh : invoke_handler I W params st arg with ⟨st1, fx, hres⟩
      have hf := handler_trace_facts I W params st arg
      rw [hh] at hf
      cases hres with
      | aborted m => simpa [run_loop, hh] using hf
      | err e => simpa [run_loop, hh] using hf
      | ok =>
          by_cases hex : Effect.exit ∈ fx
          · simpa [run_loop, hh, hex] using hf
          · rcases hl : run_loop I W params st1 rest with ⟨st2, fx2, lend⟩
            have ihr := ih st1
            rw [hl] at ihr
            have hfx : fx.all handlerEffect = true := by simpa using hf.2
            have hfx2 : fx2.all handlerEffect = true := by simpa using ihr.2
            have hfx2n : noEvalAfterExit fx2 = true := by simpa using ihr.1
            simp only [run_loop, hh, hl]
            rw [if_neg hex]
            refine ⟨noEvalAfterExit_append fx fx2 hex hfx2n, ?_⟩
            show (fx ++ fx2).all handlerEffect = true
            rw [List.all_append, hfx, hfx2]
            rfl

/-- Claim C10: beyond the spec-stated 640 by 960 size, the default
WebParams value has title App, debug off and verbose off. -/
theorem c10_default_webparams :
    WebParams.default.title = "App" ∧ WebParams.default.debug = false ∧
      WebParams.default.verbose = false :=
  ⟨rfl, rfl, rfl⟩

/-- Claim C6: if the engine's initial_html call fails, run_engine_with_webview
returns that failure to its caller; the trace holds only the startup trace
line, so no window is ever built and no message is ever handled (no script
injection occurs). -/
theorem c6_initial_html_failure {σ α ρ : Type} (I : EngineIface σ α ρ)
    (W : WebviewIface) (params : WebParams) (st : σ) (msgs : List String)
    (e : String) (hinit : I.initial_html st = Except.error e) :
    run_engine_with_webview I W params st msgs
        = ([Effect.logTrace "running with engine"], RunOutcome.err e) ∧
      windowConfigs (run_engine_with_webview I W params st msgs).1 = [] ∧
      evalScripts (run_engine_with_webview I W params st msgs).1 = [] := by
  have h1 : run_engine_with_webview I W params st msgs
      = ([Effect.logTrace "running with engine"], RunOutcome.err e) := by
    simp [run_engine_with_webview, hinit]
  refine ⟨h1, ?_, ?_⟩ <;> rw [h1] <;> rfl

/-- Claim C8: whenever the engine produces initial HTML, the one window
built by the run has title params.title, content equal to that HTML, size
params.width by params.height, resizable true and debug params.debug; and
the default WebParams size is 640 by 960. -/
theorem c8_window_built_from_params {σ α ρ : Type} (I : EngineIface σ α ρ)
    (W : WebviewIface) (params : WebParams) (st : σ) (msgs : List String)
    (html : String) (st1 : σ)
    (hinit : I.initial_html st = Except.ok (html, st1)) :
    windowConfigs (run_engine_with_webview I W params st msgs).1
        = [{ title := params.title
             content := html
             width := params.width
             height := params.height
             resizable := true
             debug := params.debug }] ∧
      WebParams.default.width = 640 ∧ WebParams.default.height = 960 := by
  refine ⟨?_, rfl, rfl⟩
  have hloopcfg : windowConfigs (run_loop I W params st1 msgs).2.1 = [] :=
    windowConfigs_nil_of_handlerEffects _ (run_loop_trace_facts I W params st1 msgs).2
  simp only [run_engine_with_webview, hinit]
  cases hb : W.buildResult
      { title := params.title
        content := html
        width := params.width
        height := params.height
        resizable := true
        debug := params.debug } with
  | error e => simp [windowConfigs, List.filterMap_append]
  | ok u =>
      rcases hl : run_loop I W params st1 msgs with ⟨st2, fx, lend⟩
      have hfxcfg : windowConfigs fx = [] := by rw [hl] at hloopcfg; simpa using hloopcfg
      cases lend <;>
        simp [windowConfigs, List.filterMap_append, hl] <;>
          simpa [windowConfigs] using hfxcfg

/-- Witness for C6: a concrete engine whose initial_html fails. -/
theorem c6_initial_html_failure_witness :
    run_engine_with_webview testIfaceBadHtml testW WebParams.default 0 ["ping"]
        = ([Effect.logTrace "running with engine"], RunOutcome.err "no page") ∧
      windowConfigs
          (run_engine_with_webview testIfaceBadHtml testW WebParams.default 0
            ["ping"]).1 = [] ∧
      evalScripts
          (run_engine_with_webview testIfaceBadHtml testW WebParams.default 0
            ["ping"]).1 = [] :=
  c6_initial_html_failure testIfaceBadHtml testW WebParams.default 0 ["ping"]
    "no page" rfl

/-- Claim C1: for an engine response R with shutdown_required false (and a
serializable R), the handler makes exactly one page-side callback
invocation, whose argument is the escaped serialization of R injected as
the script respond(payload); — the list of injected scripts is exactly that
singleton, whether or not the injection itself then succeeds. -/
theorem c1_respond_exactly_once {σ α ρ : Type} (I : EngineIface σ α ρ)
    (W : WebviewIface) (params : WebParams) (st : σ) (arg : String) (a : α)
    (st1 : σ) (R : ρ) (rs : String)
    (hdec : I.decodeAction arg = Except.ok a)
    (hex : I.execute st a = (st1, Except.ok R))
    (hsh : I.shutdown_required R = false)
    (hser : I.serializeResponse R = Except.ok rs) :
    evalScripts (invoke_handler I W params st arg).2.1
      = ["respond(" ++ W.escape rs ++ ");"] := by
  cases hev : W.evalResult ("respond(" ++ W.escape rs ++ ");") <;>
    cases hv : params.verbose <;>
      simp [invoke_handler, hdec, hex, hsh, hser, hev, hv, evalScripts]

/-- Witness for C1: the test engine answering pong to a ping message. -/
theorem c1_respond_exactly_once_witness :
    evalScripts (invoke_handler testIface testW WebParams.default 0 "ping").2.1
      = ["respond(" ++ testW.escape "pong" ++ ");"] :=
  c1_respond_exactly_once testIface testW WebParams.default 0 "ping" "ping" 1
    ⟨false, ResponseKind.Ok, "pong"⟩ "pong" rfl rfl rfl rfl

/-- Claim C2: for an engine response R with shutdown_required true, the
handler logs the message when R's kind is an error (shutdownLog), closes
the window, performs no respond call for R, and — over any whole event
loop — no script injection ever occurs after the window exit. -/
theorem c2_shutdown_closes_window {σ α ρ : Type} (I : EngineIface σ α ρ)
    (W : WebviewIface) (params : WebParams) (st : σ) (arg : String) (a : α)
    (st1 : σ) (R : ρ) (st0 : σ) (msgs : List String)
    (hdec : I.decodeAction arg = Except.ok a)
    (hex : I.execute st a = (st1, Except.ok R))
    (hsh : I.shutdown_required R = true) :
    invoke_handler I W params st arg
        = (st1,
           (if params.verbose then [Effect.logTrace ("action: " ++ arg)] else [])
             ++ shutdownLog (I.kind R) ++ [Effect.exit],
           HandlerResult.ok) ∧
      hasNoEval (invoke_handler I W params st arg).2.1 = true ∧
      noEvalAfterExit (run_loop I W params st0 msgs).2.1 = true := by
  have h1 : invoke_handler I W params st arg
      = (st1,
         (if params.verbose then [Effect.logTrace ("action: " ++ arg)] else [])
           ++ shutdownLog (I.kind R) ++ [Effect.exit],
         HandlerResult.ok) := by
    cases hk : I.kind R <;> cases hv : params.verbose <;>
      simp [invoke_handler, hdec, hex, hsh, hk, hv, shutdownLog]
  refine ⟨h1, ?_, (run_loop_trace_facts I W params st0 msgs).1⟩
  rw [h1]
  cases hk : I.kind R <;> cases hv : params.verbose <;>
    simp [hasNoEval, shutdownLog, hk, hv]

/-- Witness for C2: a shutdown response of error kind; the loop is run over
a message list with a further message after the shutdown one. -/
theorem c2_shutdown_closes_window_witness :
    invoke_handler testIface testW WebParams.default 0 "quitbad"
        = (1, [Effect.logError "system error: boom", Effect.exit],
           HandlerResult.ok) ∧
      hasNoEval (invoke_handler testIface testW WebParams.default 0
        "quitbad").2.1 = true ∧
      noEvalAfterExit (run_loop testIface testW WebParams.default 5
        ["quitbad", "ping"]).2.1 = true := by
  simpa using
    c2_shutdown_closes_window testIface testW WebParams.default 0 "quitbad"
      "quitbad" 1 ⟨true, ResponseKind.Error "boom", "bad"⟩ 5 ["quitbad", "ping"]
      rfl rfl rfl

/-- Claim C4: a message that does not decode to an action is logged and
aborts the process with no response ever sent back; likewise a non-shutdown
response that cannot be serialized is logged and aborts the process. -/
theorem c4_decode_and_serialize_failures_fatal {σ α ρ : Type}
    (I : EngineIface σ α ρ) (W : WebviewIface) (params : WebParams)
    (st : σ) (arg : String) (e : String)
    (st' : σ) (arg' : String) (a' : α) (st2 : σ) (R : ρ) (e2 : String)
    (hdec : I.decodeAction arg = Except.error e)
    (hdec' : I.decodeAction arg' = Except.ok a')
    (hex' : I.execute st' a' = (st2, Except.ok R))
    (hsh : I.shutdown_required R = false)
    (hser : I.serializeResponse R = Except.error e2) :
    invoke_handler I W params st arg
        = (st,
           (if params.verbose then [Effect.logTrace ("action: " ++ arg)] else [])
             ++ [Effect.logError ("cannot deserialise: " ++ e)],
           HandlerResult.aborted "cannot deserialise") ∧
      hasNoEval (invoke_handler I W params st arg).2.1 = true ∧
      invoke_handler I W params st' arg'
        = (st2,
           (if params.verbose then [Effect.logTrace ("action: " ++ arg')] else [])
             ++ [Effect.logError ("cannot serialise: " ++ e2)],
           HandlerResult.aborted "cannot serialise") ∧
      hasNoEval (invoke_handler I W params st' arg').2.1 = true := by
  have h1 : invoke_handler I W params st arg
      = (st,
         (if params.verbose then [Effect.logTrace ("action: " ++ arg)] else [])
           ++ [Effect.logError ("cannot deserialise: " ++ e)],
         HandlerResult.aborted "cannot deserialise") := by
    cases hv : params.verbose <;> simp [invoke_handler, hdec, hv]
  have h2 : invoke_handler I W params st' arg'
      = (st2,
         (if params.verbose then [Effect.logTrace ("action: " ++ arg')] else [])
           ++ [Effect.logError ("cannot serialise: " ++ e2)],
         HandlerResult.aborted "cannot serialise") := by
    cases hv : params.verbose <;>
      simp [invoke_handler, hdec', hex', hsh, hser, hv]
  refine ⟨h1, ?_, h2, ?_⟩ <;> [rw [h1]; rw [h2]] <;>
    cases hv : params.verbose <;> simp [hasNoEval, hv]

/-- Witness for C4: the malformed message not-json and a non-shutdown
response whose payload the test serializer rejects. -/
theorem c4_decode_and_serialize_failures_fatal_witness :
    invoke_handler testIface testW WebParams.default 0 "not-json"
        = (0, [Effect.logError "cannot deserialise: expected value"],
           HandlerResult.aborted "cannot deserialise") ∧
      hasNoEval (invoke_handler testIface testW WebParams.default 0
        "not-json").2.1 = true ∧
      invoke_handler testIface testW WebParams.default 0 "pingbad"
        = (1, [Effect.logError "cannot serialise: unserialisable"],
           HandlerResult.aborted "cannot serialise") ∧
      hasNoEval (invoke_handler testIface testW WebParams.default 0
        "pingbad").2.1 = true := by
  simpa using
    c4_decode_and_serialize_failures_fatal testIface testW WebParams.default
      0 "not-json" "expected value" 0 "pingbad" "pingbad" 1
      ⟨false, ResponseKind.Ok, "bad"⟩ "unserialisable" rfl rfl rfl rfl rfl

/-- Claim C3: whatever the engine execute call returns, the handler routes
it through the same response-handling tail handle_response: an execute
failure is not propagated; the handler logs it and continues with the
synthesized response new_with_error of the message bad execution followed
by the failure description, handled exactly as an engine-returned response
would be. -/
theorem c3_execute_error_recovered {σ α ρ : Type} (I : EngineIface σ α ρ)
    (W : WebviewIface) (params : WebParams) (st : σ) (arg : String) (a : α)
    (st1 : σ) (execRes : Except String ρ)
    (hdec : I.decodeAction arg = Except.ok a)
    (hex : I.execute st a = (st1, execRes)) :
    invoke_handler I W params st arg
      = match execRes with
        | Except.ok R =>
            ((handle_response I W st1 R).1,
             (if params.verbose then [Effect.logTrace ("action: " ++ arg)]
              else []) ++ (handle_response I W st1 R).2.1,
             (handle_response I W st1 R).2.2)
        | Except.error e =>
            ((handle_response I W st1
                (I.new_with_error ("bad execution: " ++ e))).1,
             (if params.verbose then [Effect.logTrace ("action: " ++ arg)]
              else [])
               ++ Effect.logError ("bad execution: " ++ e)
                 :: (handle_response I W st1
                      (I.new_with_error ("bad execution: " ++ e))).2.1,
             (handle_response I W st1
                (I.new_with_error ("bad execution: " ++ e))).2.2) := by
  cases execRes with
  | ok R =>
      by_cases hs : I.shutdown_required R = true
      · cases hv : params.verbose <;>
          simp [invoke_handler, handle_response, hdec, hex, hs, hv]
      · cases hser : I.serializeResponse R with
        | error e2 =>
            cases hv : params.verbose <;>
              simp [invoke_handler, handle_response, hdec, hex, hs, hser, hv]
        | ok rs =>
            cases hev : W.evalResult ("respond(" ++ W.escape rs ++ ");") <;>
              cases hv : params.verbose <;>
                simp [invoke_handler, handle_response, hdec, hex, hs, hser,
                  hev, hv]
  | error e =>
      by_cases hs :
          I.shutdown_required (I.new_with_error ("bad execution: " ++ e)) = true
      · cases hk : I.kind (I.new_with_error ("bad execution: " ++ e)) <;>
          cases hv : params.verbose <;>
            simp [invoke_handler, handle_response, hdec, hex, hs, hk, hv]
      · cases hser :
            I.serializeResponse (I.new_with_error ("bad execution: " ++ e)) with
        | error e2 =>
            cases hv : params.verbose <;>
              simp [invoke_handler, handle_response, hdec, hex, hs, hser, hv]
        | ok rs =>
            cases hev : W.evalResult ("respond(" ++ W.escape rs ++ ");") <;>
              cases hv : params.verbose <;>
                simp [invoke_handler, handle_response, hdec, hex, hs, hser,
                  hev, hv]

/-- Witness for C3: the test engine failing with disk full; the handler
continues with the synthesized error response. -/
theorem c3_execute_error_recovered_witness :
    invoke_handler testIface testW WebParams.default 0 "fail"
      = ((handle_response testIface testW 1
            (testIface.new_with_error "bad execution: disk full")).1,
         Effect.logError "bad execution: disk full"
           :: (handle_response testIface testW 1
                (testIface.new_with_error "bad execution: disk full")).2.1,
         (handle_response testIface testW 1
            (testIface.new_with_error "bad execution: disk full")).2.2) := by
  simpa using
    c3_execute_error_recovered testIface testW WebParams.default 0 "fail"
      "fail" 1 (Except.error "disk full") rfl rfl

/-- Claim C9: a shutdown response is never serialized — even when the
serializer would reject it, the handler still logs (shutdownLog), exits the
window and returns normally; the fatal cannot-serialise abort is unreachable
on the shutdown path. -/
theorem c9_shutdown_never_serializes {σ α ρ : Type} (I : EngineIface σ α ρ)
    (W : WebviewIface) (params : WebParams) (st : σ) (arg : String) (a : α)
    (st1 : σ) (R : ρ) (e : String)
    (hdec : I.decodeAction arg = Except.ok a)
    (hex : I.execute st a = (st1, Except.ok R))
    (hsh : I.shutdown_required R = true)
    (_hser : I.serializeResponse R = Except.error e) :
    invoke_handler I W params st arg
        = (st1,
           (if params.verbose then [Effect.logTrace ("action: " ++ arg)] else [])
             ++ shutdownLog (I.kind R) ++ [Effect.exit],
           HandlerResult.ok) ∧
      (invoke_handler I W params st arg).2.2
        ≠ HandlerResult.aborted "cannot serialise" := by
  have h1 : invoke_handler I W params st arg
      = (st1,
         (if params.verbose then [Effect.logTrace ("action: " ++ arg)] else [])
           ++ shutdownLog (I.kind R) ++ [Effect.exit],
         HandlerResult.ok) := by
    cases hk : I.kind R <;> cases hv : params.verbose <;>
      simp [invoke_handler, hdec, hex, hsh, hk, hv, shutdownLog]
  exact ⟨h1, by rw [h1]; simp⟩

/-- Witness for C9: a shutdown response whose payload the test serializer
rejects still closes the window cleanly. -/
theorem c9_shutdown_never_serializes_witness :
    invoke_handler testIface testW WebParams.default 0 "quitbad"
        = (1, [Effect.logError "system error: boom", Effect.exit],
           HandlerResult.ok) ∧
      (invoke_handler testIface testW WebParams.default 0 "quitbad").2.2
        ≠ HandlerResult.aborted "cannot serialise" := by
  simpa using
    c9_shutdown_never_serializes testIface testW WebParams.default 0 "quitbad"
      "quitbad" 1 ⟨true, ResponseKind.Error "boom", "bad"⟩ "unserialisable"
      rfl rfl rfl rfl

/-- Witness for C8: the concrete test engine under default parameters. -/
theorem c8_window_built_from_params_witness :
    windowConfigs
        (run_engine_with_webview testIface testW WebParams.default 0 ["ping"]).1
        = [{ title := WebParams.default.title
             content := "<html>ok</html>"
             width := WebParams.default.width
             height := WebParams.default.height
             resizable := true
             debug := WebParams.default.debug }] ∧
      WebParams.default.width = 640 ∧ WebParams.default.height = 960 :=
  c8_window_built_from_params testIface testW WebParams.default 0 ["ping"]
    "<html>ok</html>" 0 rfl

/-- Claim C5: on every run whose event loop ends with the window closed —
whether through a shutdown response (handler exit) or external closure
(messages exhausted) — the engine receives the Stop event exactly once,
after all loop effects, and run_engine_with_webview returns success; the
theorem holds for every handle_event result, so that result is discarded. -/
theorem c5_stop_event_once {σ α ρ : Type} (I : EngineIface σ α ρ)
    (W : WebviewIface) (params : WebParams) (st : σ) (msgs : List String)
    (html : String) (st1 st2 : σ) (fx : List Effect)
    (hinit : I.initial_html st = Except.ok (html, st1))
    (hbuild : W.buildResult
        { title := params.title
          content := html
          width := params.width
          height := params.height
          resizable := true
          debug := params.debug } = Except.ok ())
    (hloop : run_loop I W params st1 msgs = (st2, fx, LoopEnd.closed)) :
    (run_engine_with_webview I W params st msgs).2 = RunOutcome.ok ∧
      (run_engine_with_webview I W params st msgs).1
        = Effect.logTrace "running with engine"
            :: Effect.buildWindow
                { title := params.title
                  content := html
                  width := params.width
                  height := params.height
                  resizable := true
                  debug := params.debug }
              :: (fx ++ [Effect.engineEvent Event.Stop]) ∧
      engineEvents (run_engine_with_webview I W params st msgs).1
        = [Event.Stop] := by
  have hfxev : engineEvents fx = [] := by
    have hfacts := (run_loop_trace_facts I W params st1 msgs).2
    rw [hloop] at hfacts
    exact engineEvents_nil_of_handlerEffects _ (by simpa using hfacts)
  have h1 : run_engine_with_webview I W params st msgs
      = (Effect.logTrace "running with engine"
          :: Effect.buildWindow
              { title := params.title
                content := html
                width := params.width
                height := params.height
                resizable := true
                debug := params.debug }
            :: (fx ++ [Effect.engineEvent Event.Stop]), RunOutcome.ok) := by
    simp [run_engine_with_webview, hinit, hbuild, hloop]
  refine ⟨by rw [h1], by rw [h1], ?_⟩
  rw [h1]
  simp [engineEvents, List.filterMap_append, List.filterMap_cons] at hfxev ⊢
  simpa [engineEvents] using hfxev

/-- Witness for C5: the test engine answering ping then shutting down. -/
theorem c5_stop_event_once_witness :
    (run_engine_with_webview testIface testW WebParams.default 0
        ["ping", "quit"]).2 = RunOutcome.ok ∧
      (run_engine_with_webview testIface testW WebParams.default 0
          ["ping", "quit"]).1
        = Effect.logTrace "running with engine"
            :: Effect.buildWindow
                { title := WebParams.default.title
                  content := "<html>ok</html>"
                  width := WebParams.default.width
                  height := WebParams.default.height
                  resizable := true
                  debug := WebParams.default.debug }
              :: ([Effect.eval "respond([pong]);", Effect.exit]
                   ++ [Effect.engineEvent Event.Stop]) ∧
      engineEvents (run_engine_with_webview testIface testW WebParams.default 0
          ["ping", "quit"]).1 = [Event.Stop] :=
  c5_stop_event_once testIface testW WebParams.default 0 ["ping", "quit"]
    "<html>ok</html>" 0 2 [Effect.eval "respond([pong]);", Effect.exit]
    rfl rfl (by decide)

/-- Claim C7: the message handler returns an error, aborting the window
run, exactly when the script-injection call for the respond script fails:
its result equals HandlerResult.err e precisely when the trace holds one
injected script on which evalResult fails with e; every other failure
aborts the process or is absorbed, leaving the handler returning ok. -/
theorem c7_handler_err_iff_eval_fails {σ α ρ : Type} (I : EngineIface σ α ρ)
    (W : WebviewIface) (params : WebParams) (st : σ) (arg : String)
    (e : String) :
    (invoke_handler I W params st arg).2.2 = HandlerResult.err e ↔
      evalFailures W (invoke_handler I W params st arg).2.1 = [e] := by
  cases hd : I.decodeAction arg with
  | error e0 =>
      cases hv : params.verbose <;>
        simp [invoke_handler, hd, hv, evalFailures]
  | ok a =>
      rcases hx : I.execute st a with ⟨st1, res⟩
      cases res with
      | ok r =>
          by_cases hs : I.shutdown_required r = true
          · cases hk : I.kind r <;> cases hv : params.verbose <;>
              simp [invoke_handler, hd, hx, hs, hk, hv, evalFailures]
          · cases hser : I.serializeResponse r with
            | error e2 =>
                cases hv : params.verbose <;>
                  simp [invoke_handler, hd, hx, hs, hser, hv, evalFailures]
            | ok rs =>
                cases hev : W.evalResult ("respond(" ++ W.escape rs ++ ");") <;>
                  cases hv : params.verbose <;>
                    simp [invoke_handler, hd, hx, hs, hser, hev, hv,
                      evalFailures, eq_comm]
      | error e1 =>
          by_cases hs :
              I.shutdown_required (I.new_with_error ("bad execution: " ++ e1))
                = true
          · cases hk : I.kind (I.new_with_error ("bad execution: " ++ e1)) <;>
              cases hv : params.verbose <;>
                simp [invoke_handler, hd, hx, hs, hk, hv, evalFailures]
          · cases hser :
                I.serializeResponse
                  (I.new_with_error ("bad execution: " ++ e1)) with
            | error e2 =>
                cases hv : params.verbose <;>
                  simp [invoke_handler, hd, hx, hs, hser, hv, evalFailures]
            | ok rs =>
                cases hev : W.evalResult ("respond(" ++ W.escape rs ++ ");") <;>
                  cases hv : params.verbose <;>
                    simp [invoke_handler, hd, hx, hs, hser, hev, hv,
                      evalFailures, eq_comm]

end NarthexWeb
